import Mathlib

/-!
Shallow embedding of the sqlite3 roomserver storage layer
(src/roomserver/storage/sqlite3/storage.go).  The prepared SQL
statements live in files that are not part of the provided sources, so
their row-level semantics are modelled from the specification where a
claim depends on them; the control flow of every `Database.*`,
`membershipUpdater.*` and `roomRecentEventsUpdater.*` function below is
a direct translation of storage.go.
-/

set_option autoImplicit false

/-- Errors returned by the store.  `errNoRows` models `sql.ErrNoRows`,
the not-found sentinel; `failure` models any other database error. -/
inductive DBError where
  | errNoRows
  | failure (code : Nat)
  deriving DecidableEq

/-- A prepared statement: a state transformer that may fail.  Mirrors a
method of the `statements` struct of the source, with the context and
transaction plumbing made explicit. -/
abbrev Stmt (σ : Type) (α : Type) := σ → Except DBError α × σ

abbrev types.RoomNID := Nat

abbrev types.EventTypeNID := Nat

abbrev types.EventStateKeyNID := Nat

abbrev types.EventNID := Nat

abbrev types.StateSnapshotNID := Nat

abbrev types.StateBlockNID := Nat

/-- types.StateKeyTuple from the roomserver types package. -/
structure types.StateKeyTuple where
  eventTypeNID : types.EventTypeNID
  eventStateKeyNID : types.EventStateKeyNID
  deriving DecidableEq, Inhabited

/-- types.StateEntry: a state-slot assignment. -/
structure types.StateEntry where
  stateKeyTuple : types.StateKeyTuple
  eventNID : types.EventNID
  deriving DecidableEq, Inhabited

/-- types.StateAtEvent: the state snapshot before an event together
with the event's own state entry. -/
structure types.StateAtEvent where
  beforeStateSnapshotNID : types.StateSnapshotNID
  stateEntry : types.StateEntry
  deriving DecidableEq, Inhabited

/-- types.StateAtEventAndReference, reduced to the fields the frontier
code reads (the event NID and its event id reference). -/
structure types.StateAtEventAndReference where
  eventNID : types.EventNID
  eventID : String
  deriving DecidableEq, Inhabited

/-- gomatrixserverlib.Event, reduced to the accessors storage.go calls. -/
structure GEvent where
  eventID : String
  roomID : String
  eventType : String
  stateKey : Option String
  sender : String
  sha256 : String
  depth : Int
  json : String
  deriving DecidableEq, Inhabited

/-- types.Event: an event NID together with the parsed event. -/
structure types.Event where
  eventNID : types.EventNID
  event : GEvent
  deriving DecidableEq, Inhabited

/-- api.TransactionID: the client resubmission key. -/
structure api.TransactionID where
  transactionID : String
  sessionID : Int
  deriving DecidableEq, Inhabited

/-- Membership states of the per-(room, user) state machine.  `unset`
is the lazily created initial state. -/
inductive membershipState where
  | unset
  | leaveOrBan
  | invite
  | join
  deriving DecidableEq, Inhabited

/-- A stored event row, reduced to the columns storage.go reads back
(the event NID and its state snapshot NID). -/
structure EventRow where
  eventNID : types.EventNID
  stateSnapshotNID : types.StateSnapshotNID
  deriving DecidableEq, Inhabited

/-- A stored invite row. -/
structure InviteRow where
  eventID : String
  roomNID : types.RoomNID
  targetUserNID : types.EventStateKeyNID
  senderUserNID : types.EventStateKeyNID
  json : String
  retired : Bool
  deriving DecidableEq, Inhabited

/-- A stored membership row (keyed externally by room and target user). -/
structure MembershipRow where
  senderUserNID : types.EventStateKeyNID
  membership : membershipState
  eventNID : types.EventNID
  deriving DecidableEq, Inhabited

/-- A stored per-room frontier row: latest event NIDs, last event NID
sent to the output log, and the current state snapshot NID. -/
structure FrontierRow where
  eventNIDs : List types.EventNID
  lastEventNIDSent : types.EventNID
  stateSnapshotNID : types.StateSnapshotNID
  deriving DecidableEq, Inhabited

/-- The `statements` struct of the source: one field per prepared SQL
statement used by the functions the claims are about, generic in the
store state so that claims about pure control flow can be settled for
every possible statement behaviour. -/
structure Statements (σ : Type) where
  selectRoomNID : String → Stmt σ types.RoomNID
  insertRoomNID : String → Stmt σ types.RoomNID
  selectEventTypeNID : String → Stmt σ types.EventTypeNID
  insertEventTypeNID : String → Stmt σ types.EventTypeNID
  selectEventStateKeyNID : String → Stmt σ types.EventStateKeyNID
  insertEventStateKeyNID : String → Stmt σ types.EventStateKeyNID
  insertTransaction : String → Int → String → String → Stmt σ Unit
  selectTransactionEventID : String → Int → String → Stmt σ String
  insertEvent : types.RoomNID → types.EventTypeNID → types.EventStateKeyNID → String → String → List types.EventNID → Int → Stmt σ (types.EventNID × types.StateSnapshotNID)
  selectEvent : String → Stmt σ (types.EventNID × types.StateSnapshotNID)
  insertEventJSON : types.EventNID → String → Stmt σ Unit
  bulkSelectEventJSON : List types.EventNID → Stmt σ (List (types.EventNID × String))
  bulkSelectEventNID : List String → Stmt σ (List (String × types.EventNID))
  selectNextStateBlockNID : Stmt σ types.StateBlockNID
  bulkInsertStateData : types.StateBlockNID → List types.StateEntry → Stmt σ Unit
  insertState : types.RoomNID → List types.StateBlockNID → Stmt σ types.StateSnapshotNID
  selectLatestEventsNIDsForUpdate : types.RoomNID → Stmt σ (List types.EventNID × types.EventNID × types.StateSnapshotNID)
  bulkSelectStateAtEventAndReference : List types.EventNID → Stmt σ (List types.StateAtEventAndReference)
  selectEventID : types.EventNID → Stmt σ String
  updateLatestEventNIDs : types.RoomNID → List types.EventNID → types.EventNID → types.StateSnapshotNID → Stmt σ Unit
  insertInviteEvent : String → types.RoomNID → types.EventStateKeyNID → types.EventStateKeyNID → String → Stmt σ Bool
  updateInviteRetired : types.RoomNID → types.EventStateKeyNID → Stmt σ (List String)
  updateMembership : types.RoomNID → types.EventStateKeyNID → types.EventStateKeyNID → membershipState → types.EventNID → Stmt σ Unit

/-- Association-list lookup used to model table lookups by key. -/
def alookup {κ α : Type} [DecidableEq κ] (k : κ) : List (κ × α) → Option α
  | [] => none
  | (k1, v) :: rest => if k1 = k then some v else alookup k rest

/-- Lookup with a default, modelling Go map indexing (missing key
yields the zero value). -/
def alookupD {κ α : Type} [DecidableEq κ] (k : κ) (l : List (κ × α)) (d : α) : α :=
  (alookup k l).getD d

/-- Insert-or-replace by key, modelling an UPSERT / REPLACE statement. -/
def aupsert {κ α : Type} [DecidableEq κ] (k : κ) (v : α) : List (κ × α) → List (κ × α)
  | [] => [(k, v)]
  | (k1, v1) :: rest => if k1 = k then (k, v) :: rest else (k1, v1) :: aupsert k v rest

/-- Update-in-place by key, modelling a SQL UPDATE (no row is created
when the key is absent). -/
def aupdate {κ α : Type} [DecidableEq κ] (k : κ) (f : α → α) : List (κ × α) → List (κ × α)
  | [] => []
  | (k1, v1) :: rest => if k1 = k then (k1, f v1) :: rest else (k1, v1) :: aupdate k f rest

/-- The store contents: one field per table the modelled statements
touch, plus the sequence counters used to mint fresh NIDs. -/
structure DBState where
  rooms : List (String × types.RoomNID)
  nextRoomNID : Nat
  eventTypes : List (String × types.EventTypeNID)
  nextEventTypeNID : Nat
  stateKeys : List (String × types.EventStateKeyNID)
  nextStateKeyNID : Nat
  events : List (String × EventRow)
  nextEventNID : Nat
  eventJSON : List (types.EventNID × String)
  txnRows : List ((String × Int × String) × String)
  stateBlocks : List (types.StateBlockNID × List types.StateEntry)
  nextStateBlockNID : Nat
  snapshots : List (types.StateSnapshotNID × (types.RoomNID × List types.StateBlockNID))
  nextSnapshotNID : Nat
  latest : List (types.RoomNID × FrontierRow)
  invites : List InviteRow
  memberships : List ((types.RoomNID × types.EventStateKeyNID) × MembershipRow)
  deriving DecidableEq

/-- The empty store, with all NID counters starting at 1. -/
def DBState.empty : DBState :=
  { rooms := [], nextRoomNID := 1, eventTypes := [], nextEventTypeNID := 1,
    stateKeys := [], nextStateKeyNID := 1, events := [], nextEventNID := 1,
    eventJSON := [], txnRows := [], stateBlocks := [], nextStateBlockNID := 1,
    snapshots := [], nextSnapshotNID := 1, latest := [], invites := [],
    memberships := [] }

/-- Find the event id of a stored event by its NID. -/
def findEventIDByNID : List (String × EventRow) → types.EventNID → Option String
  | [], _ => none
  | (eid, row) :: rest, nid => if row.eventNID = nid then some eid else findEventIDByNID rest nid

/-- Resolve a list of event ids against the events table, skipping the
ids with no stored row, as a bulk SELECT ... IN does. -/
def selectNIDs (events : List (String × EventRow)) : List String → List (String × types.EventNID)
  | [] => []
  | eid :: rest =>
    match alookup eid events with
    | some row => (eid, row.eventNID) :: selectNIDs events rest
    | none => selectNIDs events rest

/-- Load the stored JSON bodies for a list of event NIDs, skipping the
NIDs with no stored body. -/
def selectJSONs (tbl : List (types.EventNID × String)) : List types.EventNID → List (types.EventNID × String)
  | [] => []
  | nid :: rest =>
    match alookup nid tbl with
    | some j => (nid, j) :: selectJSONs tbl rest
    | none => selectJSONs tbl rest

/-- Resolve event NIDs to (NID, event id) reference pairs; a missing
row is the not-found sentinel. -/
def refsForNIDs (events : List (String × EventRow)) : List types.EventNID → Except DBError (List types.StateAtEventAndReference)
  | [] => .ok []
  | nid :: rest =>
    match findEventIDByNID events nid with
    | some eid =>
      match refsForNIDs events rest with
      | .ok xs => .ok ({ eventNID := nid, eventID := eid } :: xs)
      | .error e => .error e
    | none => .error .errNoRows

/-- True when an invite row with the given event id is already stored. -/
def inviteExists (eid : String) : List InviteRow → Bool
  | [] => false
  | inv :: rest => if inv.eventID = eid then true else inviteExists eid rest

/-- Mark every non-retired invite for the (room, target) pair as
retired, returning the retired event ids and the updated table. -/
def retireInvites (room : types.RoomNID) (target : types.EventStateKeyNID) : List InviteRow → (List String × List InviteRow)
  | [] => ([], [])
  | inv :: rest =>
    let p := retireInvites room target rest
    if inv.roomNID = room ∧ inv.targetUserNID = target ∧ inv.retired = false then
      (inv.eventID :: p.1, { inv with retired := true } :: p.2)
    else
      (p.1, inv :: p.2)

/-- Modelled from the spec: the prepared-statement layer of this
package (the *_table.go files with the SQL text and row scanning are
not among the provided sources).  Selects return the stored row or the
not-found sentinel; inserts of interned strings and of events report
the not-found sentinel instead of an error when the unique key already
exists; the invite insert signals a duplicate event id as a false
"newly inserted" flag; the invite retirement marks every outstanding
non-retired invite of the pair and returns their event ids; the
membership update rewrites the row of the pair in place; the frontier
update replaces the room's frontier row as a whole. -/
def sqliteStatements : Statements DBState where
  selectRoomNID := fun k s =>
    match alookup k s.rooms with
    | some n => (.ok n, s)
    | none => (.error .errNoRows, s)
  insertRoomNID := fun k s =>
    match alookup k s.rooms with
    | some _ => (.error .errNoRows, s)
    | none => (.ok s.nextRoomNID, { s with rooms := (k, s.nextRoomNID) :: s.rooms, nextRoomNID := s.nextRoomNID + 1 })
  selectEventTypeNID := fun k s =>
    match alookup k s.eventTypes with
    | some n => (.ok n, s)
    | none => (.error .errNoRows, s)
  insertEventTypeNID := fun k s =>
    match alookup k s.eventTypes with
    | some _ => (.error .errNoRows, s)
    | none => (.ok s.nextEventTypeNID, { s with eventTypes := (k, s.nextEventTypeNID) :: s.eventTypes, nextEventTypeNID := s.nextEventTypeNID + 1 })
  selectEventStateKeyNID := fun k s =>
    match alookup k s.stateKeys with
    | some n => (.ok n, s)
    | none => (.error .errNoRows, s)
  insertEventStateKeyNID := fun k s =>
    match alookup k s.stateKeys with
    | some _ => (.error .errNoRows, s)
    | none => (.ok s.nextStateKeyNID, { s with stateKeys := (k, s.nextStateKeyNID) :: s.stateKeys, nextStateKeyNID := s.nextStateKeyNID + 1 })
  insertTransaction := fun tid sid uid eid s =>
    (.ok (), { s with txnRows := aupsert (tid, sid, uid) eid s.txnRows })
  selectTransactionEventID := fun tid sid uid s =>
    match alookup (tid, sid, uid) s.txnRows with
    | some eid => (.ok eid, s)
    | none => (.error .errNoRows, s)
  insertEvent := fun _ _ _ eventID _ _ _ s =>
    match alookup eventID s.events with
    | some _ => (.error .errNoRows, s)
    | none => (.ok (s.nextEventNID, 0), { s with events := (eventID, { eventNID := s.nextEventNID, stateSnapshotNID := 0 }) :: s.events, nextEventNID := s.nextEventNID + 1 })
  selectEvent := fun eventID s =>
    match alookup eventID s.events with
    | some row => (.ok (row.eventNID, row.stateSnapshotNID), s)
    | none => (.error .errNoRows, s)
  insertEventJSON := fun nid json s =>
    (.ok (), { s with eventJSON := aupsert nid json s.eventJSON })
  bulkSelectEventJSON := fun nids s => (.ok (selectJSONs s.eventJSON nids), s)
  bulkSelectEventNID := fun eids s => (.ok (selectNIDs s.events eids), s)
  selectNextStateBlockNID := fun s =>
    (.ok s.nextStateBlockNID, { s with nextStateBlockNID := s.nextStateBlockNID + 1 })
  bulkInsertStateData := fun blockNID entries s =>
    (.ok (), { s with stateBlocks := (blockNID, entries) :: s.stateBlocks })
  insertState := fun roomNID blockNIDs s =>
    (.ok s.nextSnapshotNID, { s with snapshots := (s.nextSnapshotNID, (roomNID, blockNIDs)) :: s.snapshots, nextSnapshotNID := s.nextSnapshotNID + 1 })
  selectLatestEventsNIDsForUpdate := fun roomNID s =>
    match alookup roomNID s.latest with
    | some f => (.ok (f.eventNIDs, f.lastEventNIDSent, f.stateSnapshotNID), s)
    | none => (.error .errNoRows, s)
  bulkSelectStateAtEventAndReference := fun nids s => (refsForNIDs s.events nids, s)
  selectEventID := fun nid s =>
    match findEventIDByNID s.events nid with
    | some eid => (.ok eid, s)
    | none => (.error .errNoRows, s)
  updateLatestEventNIDs := fun roomNID nids lastSent snap s =>
    (.ok (), { s with latest := aupsert roomNID { eventNIDs := nids, lastEventNIDSent := lastSent, stateSnapshotNID := snap } s.latest })
  insertInviteEvent := fun eid roomNID targetNID senderNID json s =>
    if inviteExists eid s.invites then
      (.ok false, s)
    else
      (.ok true, { s with invites := s.invites ++ [{ eventID := eid, roomNID := roomNID, targetUserNID := targetNID, senderUserNID := senderNID, json := json, retired := false }] })
  updateInviteRetired := fun roomNID targetNID s =>
    let p := retireInvites roomNID targetNID s.invites
    (.ok p.1, { s with invites := p.2 })
  updateMembership := fun roomNID targetNID senderNID mem evNID s =>
    (.ok (), { s with memberships := aupdate (roomNID, targetNID) (fun _ => { senderUserNID := senderNID, membership := mem, eventNID := evNID }) s.memberships })

/-- A statements record over a trivial state in which every statement
succeeds with a zero value; used as the base for injecting single
statement failures when settling the error-handling claims. -/
def unitStatements : Statements Unit where
  selectRoomNID := fun _ s => (.ok 0, s)
  insertRoomNID := fun _ s => (.ok 0, s)
  selectEventTypeNID := fun _ s => (.ok 0, s)
  insertEventTypeNID := fun _ s => (.ok 0, s)
  selectEventStateKeyNID := fun _ s => (.ok 0, s)
  insertEventStateKeyNID := fun _ s => (.ok 0, s)
  insertTransaction := fun _ _ _ _ s => (.ok (), s)
  selectTransactionEventID := fun _ _ _ s => (.ok "", s)
  insertEvent := fun _ _ _ _ _ _ _ s => (.ok (0, 0), s)
  selectEvent := fun _ s => (.ok (0, 0), s)
  insertEventJSON := fun _ _ s => (.ok (), s)
  bulkSelectEventJSON := fun _ s => (.ok [], s)
  bulkSelectEventNID := fun _ s => (.ok [], s)
  selectNextStateBlockNID := fun s => (.ok 0, s)
  bulkInsertStateData := fun _ _ s => (.ok (), s)
  insertState := fun _ _ s => (.ok 0, s)
  selectLatestEventsNIDsForUpdate := fun _ s => (.ok ([], 0, 0), s)
  bulkSelectStateAtEventAndReference := fun _ s => (.ok [], s)
  selectEventID := fun _ s => (.ok "", s)
  updateLatestEventNIDs := fun _ _ _ _ s => (.ok (), s)
  insertInviteEvent := fun _ _ _ _ _ s => (.ok true, s)
  updateInviteRetired := fun _ _ s => (.ok [], s)
  updateMembership := fun _ _ _ _ _ s => (.ok (), s)

/-- Sequencing of fallible store operations: stop at the first error,
as consecutive `if err != nil { return err }` checks do. -/
def andThen {σ α β : Type} (r : Except DBError α × σ) (f : α → σ → Except DBError β × σ) : Except DBError β × σ :=
  match r with
  | (.ok a, s) => f a s
  | (.error e, s) => (.error e, s)

/-- common.WithTransaction: run the body on the store; commit its
effects when it reports no error, otherwise roll them back and return
the error. -/
def common.WithTransaction {σ α : Type} (s : σ) (f : σ → Except DBError α × σ) : Except DBError α × σ :=
  match f s with
  | (.ok a, s1) => (.ok a, s1)
  | (.error e, _) => (.error e, s)

/-- Translation of Database.assignRoomNID (storage.go lines 156-170):
select the existing mapping; on the not-found sentinel insert; if the
insert reports the not-found sentinel, run the select once more. -/
def Database.assignRoomNID {σ : Type} (st : Statements σ) (roomID : String) (s : σ) : Except DBError types.RoomNID × σ :=
  match st.selectRoomNID roomID s with
  | (.error .errNoRows, s1) =>
    (match st.insertRoomNID roomID s1 with
     | (.error .errNoRows, s2) => st.selectRoomNID roomID s2
     | other => other)
  | other => other

/-- Translation of Database.assignEventTypeNID (storage.go lines
172-186). -/
def Database.assignEventTypeNID {σ : Type} (st : Statements σ) (eventType : String) (s : σ) : Except DBError types.EventTypeNID × σ :=
  match st.selectEventTypeNID eventType s with
  | (.error .errNoRows, s1) =>
    (match st.insertEventTypeNID eventType s1 with
     | (.error .errNoRows, s2) => st.selectEventTypeNID eventType s2
     | other => other)
  | other => other

/-- Translation of Database.assignStateKeyNID (storage.go lines
188-202). -/
def Database.assignStateKeyNID {σ : Type} (st : Statements σ) (eventStateKey : String) (s : σ) : Except DBError types.EventStateKeyNID × σ :=
  match st.selectEventStateKeyNID eventStateKey s with
  | (.error .errNoRows, s1) =>
    (match st.insertEventStateKeyNID eventStateKey s1 with
     | (.error .errNoRows, s2) => st.selectEventStateKeyNID eventStateKey s2
     | other => other)
  | other => other

/-- The spec's words for the select-insert-reselect algorithm (section
4.1): (a) read an existing mapping and return it if found; (b) if
absent, insert; (c) if the insert reports no rows affected, re-run the
select exactly once and return its result; every other error is
returned as is. -/
def selectInsertReselectSpec {σ : Type} (sel ins : Stmt σ Nat) (s : σ) : Except DBError Nat × σ :=
  match sel s with
  | (.ok nid, s1) => (.ok nid, s1)
  | (.error .errNoRows, s1) =>
    (match ins s1 with
     | (.error .errNoRows, s2) => sel s2
     | other => other)
  | (.error e, s1) => (.error e, s1)

/-- Translation of Database.StoreEvent (storage.go lines 66-154): the
optional transaction-key record, then three scoped transactions that
intern the room id, the event type, and finally the state key plus the
event row (falling back to the select on the duplicate sentinel) and
the event JSON body. -/
def Database.StoreEvent {σ : Type} (st : Statements σ) (event : GEvent) (txnAndSessionID : Option api.TransactionID) (authEventNIDs : List types.EventNID) (s : σ) : Except DBError (types.RoomNID × types.StateAtEvent) × σ :=
  andThen
    (match txnAndSessionID with
     | none => (.ok (), s)
     | some t => st.insertTransaction t.transactionID t.sessionID event.sender event.eventID s)
    (fun _ s =>
  andThen (common.WithTransaction s (fun tx => Database.assignRoomNID st event.roomID tx)) (fun roomNID s =>
  andThen (common.WithTransaction s (fun tx => Database.assignEventTypeNID st event.eventType tx)) (fun eventTypeNID s =>
  andThen
    (common.WithTransaction s (fun tx =>
      andThen
        (match event.stateKey with
         | none => (.ok 0, tx)
         | some k => Database.assignStateKeyNID st k tx)
        (fun eventStateKeyNID tx =>
      andThen
        (match st.insertEvent roomNID eventTypeNID eventStateKeyNID event.eventID event.sha256 authEventNIDs event.depth tx with
         | (.error .errNoRows, tx2) => st.selectEvent event.eventID tx2
         | other => other)
        (fun p tx =>
      andThen (st.insertEventJSON p.1 event.json tx) (fun _ tx =>
      (.ok (eventStateKeyNID, p.1, p.2), tx))))))
    (fun trip s =>
      (.ok (roomNID,
        { beforeStateSnapshotNID := trip.2.2,
          stateEntry :=
            { stateKeyTuple := { eventTypeNID := eventTypeNID, eventStateKeyNID := trip.1 },
              eventNID := trip.2.1 } }), s)))))

/-- Outcome of running a piece of Go code that can hit a runtime panic
(an out-of-range slice index). -/
inductive GoResult (α : Type) where
  | panicked (msg : String)
  | ok (val : α)
  deriving DecidableEq

/-- The loop body of Database.Events: for each loaded (NID, JSON) pair,
take the address of results[i] (a bounds-checked index), fill in the
NID, and parse the stored JSON; a parse failure exits the closure with
the error. -/
def eventsLoop (parse : String → Except DBError GEvent) : List (types.EventNID × String) → Nat → List types.Event → GoResult (Except DBError (List types.Event))
  | [], _, results => .ok (.ok results)
  | (nid, json) :: rest, i, results =>
    if i < results.length then
      match parse json with
      | .error e => .ok (.error e)
      | .ok ev => eventsLoop parse rest (i + 1) (results.set i { eventNID := nid, event := ev })
    else
      .panicked "index out of range"

/-- Translation of Database.Events (storage.go lines 240-266): the
result slice is allocated from the length of eventJSONs before the
query that populates eventJSONs has run, the closure loads the bodies
and reconstructs each event into that slice, and the outer error
variable decides the return value. -/
def Database.Events {σ : Type} (st : Statements σ) (parse : String → Except DBError GEvent) (eventNIDs : List types.EventNID) (s : σ) : GoResult (Except DBError (List types.Event) × σ) :=
  let eventJSONs : List (types.EventNID × String) := []
  let results : List types.Event := List.replicate eventJSONs.length default
  match st.bulkSelectEventJSON eventNIDs s with
  | (.error e, s1) => .ok (.error e, s1)
  | (.ok pairs, s1) =>
    match eventsLoop parse pairs 0 results with
    | .panicked m => .panicked m
    | .ok (.error e) => .ok (.error e, s1)
    | .ok (.ok results2) => .ok (.ok results2, s1)

/-- A Go slice header over a heap of backing arrays: a buffer index, a
length and a capacity. -/
structure NIDSlice where
  buf : Nat
  len : Nat
  cap : Nat
  deriving DecidableEq

/-- The process heap holding the backing arrays of NID slices. -/
abbrev Heap := List (List types.StateBlockNID)

/-- The elements a slice header denotes on a heap. -/
def view (h : Heap) (sl : NIDSlice) : List types.StateBlockNID :=
  (h.getD sl.buf []).take sl.len

/-- Go append: write in place when spare capacity exists, otherwise
allocate a fresh backing array holding a copy plus the new element. -/
def goAppend (h : Heap) (sl : NIDSlice) (x : types.StateBlockNID) : Heap × NIDSlice :=
  if sl.len < sl.cap then
    (h.set sl.buf ((h.getD sl.buf []).set sl.len x), { sl with len := sl.len + 1 })
  else
    (h ++ [view h sl ++ [x]], { buf := h.length, len := sl.len + 1, cap := sl.len + 1 })

/-- The full slice expression s[:len(s):len(s)] of storage.go line 284:
same elements, capacity clamped to the length so a following append
must reallocate instead of writing into the caller's backing array. -/
def fullSliceExpr (sl : NIDSlice) : NIDSlice :=
  { sl with cap := sl.len }

/-- Translation of Database.AddState (storage.go lines 269-293),
including its exact error plumbing: the closure's first two statement
failures return a shadowed inner error, which rolls the transaction
back but leaves the outer error variable nil because WithTransaction's
return value is discarded; an insertState failure sets the outer error
but the closure still returns nil, so the transaction commits. -/
def Database.AddState {σ : Type} (st : Statements σ) (roomNID : types.RoomNID) (heap : Heap) (stateBlockNIDs : NIDSlice) (state : List types.StateEntry) (s : σ) : Except DBError types.StateSnapshotNID × σ × Heap :=
  if 0 < state.length then
    match st.selectNextStateBlockNID s with
    | (.error _, _) => (.ok 0, s, heap)
    | (.ok stateBlockNID, s1) =>
      match st.bulkInsertStateData stateBlockNID state s1 with
      | (.error _, _) => (.ok 0, s, heap)
      | (.ok _, s2) =>
        let p := goAppend heap (fullSliceExpr stateBlockNIDs) stateBlockNID
        match st.insertState roomNID (view p.1 p.2) s2 with
        | (.error e, s3) => (.error e, s3, p.1)
        | (.ok stateNID, s3) => (.ok stateNID, s3, p.1)
  else
    match st.insertState roomNID (view heap stateBlockNIDs) s with
    | (.error e, s1) => (.error e, s1, heap)
    | (.ok stateNID, s1) => (.ok stateNID, s1, heap)

/-- Translation of Database.GetTransactionEventID (storage.go lines
370-380): the not-found sentinel becomes an empty event id with no
error; everything else is returned as is. -/
def Database.GetTransactionEventID {σ : Type} (st : Statements σ) (transactionID : String) (sessionID : Int) (userID : String) (s : σ) : Except DBError String × σ :=
  match st.selectTransactionEventID transactionID sessionID userID s with
  | (.error .errNoRows, s1) => (.ok "", s1)
  | other => other

/-- Translation of Database.RoomNID (storage.go lines 458-465): the
not-found sentinel becomes the zero NID with no error. -/
def Database.RoomNID {σ : Type} (st : Statements σ) (roomID : String) (s : σ) : Except DBError types.RoomNID × σ :=
  match st.selectRoomNID roomID s with
  | (.error .errNoRows, s1) => (.ok 0, s1)
  | other => other

/-- Translation of Database.EventNIDs (storage.go lines 233-237),
returning the event-id-to-NID map as an association list. -/
def Database.EventNIDs {σ : Type} (st : Statements σ) (eventIDs : List String) (s : σ) : Except DBError (List (String × types.EventNID)) × σ :=
  st.bulkSelectEventNID eventIDs s

/-- The sql database handle: the committed store plus the working copy
of the one open explicit transaction, when a session holds one. -/
structure GoDB where
  committed : DBState
  txn : Option DBState
  deriving DecidableEq

/-- db.Begin: open an explicit transaction whose working copy starts
from the committed store. -/
def GoDB.begin (db : GoDB) : GoDB :=
  { db with txn := some db.committed }

/-- Run one statement either inside the open transaction (the txn
argument of the source) or directly on the committed store with
autocommit (a nil txn argument). -/
def runStmt {α : Type} (useTxn : Bool) (f : Stmt DBState α) (db : GoDB) : Except DBError α × GoDB :=
  if useTxn then
    match db.txn with
    | some t =>
      let r := f t
      (r.1, { db with txn := some r.2 })
    | none => (.error (.failure 0), db)
  else
    let r := f db.committed
    (r.1, { db with committed := r.2 })

/-- transaction.Commit (storage.go lines 771-773): publish the working
copy as the committed store. -/
def transaction.Commit (db : GoDB) : GoDB :=
  match db.txn with
  | some t => { committed := t, txn := none }
  | none => db

/-- transaction.Rollback (storage.go lines 776-778): discard the
working copy; the committed store is untouched. -/
def transaction.Rollback (db : GoDB) : GoDB :=
  { db with txn := none }

/-- The frontier session state captured at open time (storage.go lines
382-389). -/
structure roomRecentEventsUpdater where
  roomNID : types.RoomNID
  latestEvents : List types.StateAtEventAndReference
  lastEventIDSent : String
  currentStateSnapshotNID : types.StateSnapshotNID
  deriving DecidableEq

/-- Translation of Database.GetLatestEventsForUpdate (storage.go lines
339-368): begin a transaction, read the room's frontier row and the
referenced events inside it, resolve the last-sent event id when set,
and hand back a session bound to the still-open transaction. -/
def Database.GetLatestEventsForUpdate (st : Statements DBState) (roomNID : types.RoomNID) (db : GoDB) : Except DBError roomRecentEventsUpdater × GoDB :=
  let db := GoDB.begin db
  match runStmt true (st.selectLatestEventsNIDsForUpdate roomNID) db with
  | (.error e, db) => (.error e, transaction.Rollback db)
  | (.ok trip, db) =>
    match runStmt true (st.bulkSelectStateAtEventAndReference trip.1) db with
    | (.error e, db) => (.error e, transaction.Rollback db)
    | (.ok stateAndRefs, db) =>
      match
        (if trip.2.1 ≠ 0 then runStmt true (st.selectEventID trip.2.1) db else (.ok "", db))
      with
      | (.error e, db) => (.error e, transaction.Rollback db)
      | (.ok lastEventIDSent, db) =>
        (.ok { roomNID := roomNID, latestEvents := stateAndRefs, lastEventIDSent := lastEventIDSent, currentStateSnapshotNID := trip.2.2 }, db)

/-- Translation of roomRecentEventsUpdater.SetLatestEvents (storage.go
lines 429-439): project the latest-event NIDs and write the frontier
row with a nil transaction argument (the session transaction was
removed at line 438), so the write autocommits on the committed store
rather than joining the session. -/
def roomRecentEventsUpdater.SetLatestEvents (st : Statements DBState) (_u : roomRecentEventsUpdater) (roomNID : types.RoomNID) (latest : List types.StateAtEventAndReference) (lastEventNIDSent : types.EventNID) (currentStateSnapshotNID : types.StateSnapshotNID) (db : GoDB) : Except DBError Unit × GoDB :=
  let eventNIDs := latest.map (fun x => x.eventNID)
  runStmt false (st.updateLatestEventNIDs roomNID eventNIDs lastEventNIDSent currentStateSnapshotNID) db

/-- The membership session state captured at open time (storage.go
lines 571-577): the pair's key NIDs and the membership state read by
selectMembershipForUpdate when the session was created. -/
structure membershipUpdater where
  roomNID : types.RoomNID
  targetUserNID : types.EventStateKeyNID
  membership : membershipState
  deriving DecidableEq

/-- Translation of membershipUpdater.SetToInvite (storage.go lines
616-635): intern the sender, record the invite keyed by event id (a
duplicate is reported as not newly inserted, never as an error), and
update the membership row to Invite with a zero event NID only when
the state read at session open is not already Invite. -/
def membershipUpdater.SetToInvite {σ : Type} (st : Statements σ) (u : membershipUpdater) (event : GEvent) (s : σ) : Except DBError Bool × σ :=
  andThen (Database.assignStateKeyNID st event.sender s) (fun senderUserNID s =>
  andThen (st.insertInviteEvent event.eventID u.roomNID u.targetUserNID senderUserNID event.json s) (fun inserted s =>
  andThen
    (if u.membership ≠ membershipState.invite then
      st.updateMembership u.roomNID u.targetUserNID senderUserNID membershipState.invite 0 s
     else (.ok (), s))
    (fun _ s => (.ok inserted, s))))

/-- Translation of membershipUpdater.SetToJoin (storage.go lines
638-672): intern the sender; unless this is a join update, retire the
outstanding invites of the pair and collect their event ids; resolve
the join event id to its NID; and update the membership row to Join
with that NID when the state read at session open is not Join or this
is a join update. -/
def membershipUpdater.SetToJoin {σ : Type} (st : Statements σ) (u : membershipUpdater) (senderUserID : String) (eventID : String) (isUpdate : Bool) (s : σ) : Except DBError (List String) × σ :=
  andThen (Database.assignStateKeyNID st senderUserID s) (fun senderUserNID s =>
  andThen
    (if isUpdate then (.ok [], s) else st.updateInviteRetired u.roomNID u.targetUserNID s)
    (fun inviteEventIDs s =>
  andThen (Database.EventNIDs st [eventID] s) (fun nIDs s =>
  andThen
    (if u.membership ≠ membershipState.join ∨ isUpdate = true then
      st.updateMembership u.roomNID u.targetUserNID senderUserNID membershipState.join (alookupD eventID nIDs 0) s
     else (.ok (), s))
    (fun _ s => (.ok inviteEventIDs, s)))))

lemma alookup_mem {κ α : Type} [DecidableEq κ] {k : κ} {v : α} :
    ∀ {l : List (κ × α)}, alookup k l = some v → (k, v) ∈ l := by
  intro l
  induction l with
  | nil => intro h; simp [alookup] at h
  | cons p rest ih =>
    intro h
    rcases p with ⟨k1, v1⟩
    by_cases hk : k1 = k
    · subst hk
      simp [alookup] at h
      subst h
      exact List.mem_cons_self _ _
    · simp [alookup, hk] at h
      exact List.mem_cons_of_mem _ (ih h)

/-- Claim C3: assignRoomNID, assignEventTypeNID and assignStateKeyNID
all follow the same three-step select-insert-reselect algorithm: (a) a
found select is returned; (b) a not-found select triggers the insert;
(c) a not-found insert triggers exactly one reselect whose result is
returned verbatim; any other error at steps (a)-(c), including a
failure of the single reselect, is returned to the caller without a
further retry. -/
theorem assignNID_follows_selectInsertReselect :
    (∀ (σ : Type) (st : Statements σ) (k : String) (s : σ),
      Database.assignRoomNID st k s = selectInsertReselectSpec (st.selectRoomNID k) (st.insertRoomNID k) s) ∧
    (∀ (σ : Type) (st : Statements σ) (k : String) (s : σ),
      Database.assignEventTypeNID st k s = selectInsertReselectSpec (st.selectEventTypeNID k) (st.insertEventTypeNID k) s) ∧
    (∀ (σ : Type) (st : Statements σ) (k : String) (s : σ),
      Database.assignStateKeyNID st k s = selectInsertReselectSpec (st.selectEventStateKeyNID k) (st.insertEventStateKeyNID k) s) ∧
    (∀ (σ : Type) (sel ins : Stmt σ Nat) (s s1 : σ),
      (∀ v, sel s = (.ok v, s1) → selectInsertReselectSpec sel ins s = (.ok v, s1)) ∧
      (∀ e, e ≠ DBError.errNoRows → sel s = (.error e, s1) → selectInsertReselectSpec sel ins s = (.error e, s1)) ∧
      (sel s = (.error .errNoRows, s1) →
        (∀ v s2, ins s1 = (.ok v, s2) → selectInsertReselectSpec sel ins s = (.ok v, s2)) ∧
        (∀ e s2, e ≠ DBError.errNoRows → ins s1 = (.error e, s2) → selectInsertReselectSpec sel ins s = (.error e, s2)) ∧
        (∀ s2, ins s1 = (.error .errNoRows, s2) → selectInsertReselectSpec sel ins s = sel s2))) := by
  refine ⟨?_, ?_, ?_, ?_⟩
  · intro σ st k s
    simp only [Database.assignRoomNID, selectInsertReselectSpec]
    rcases hs : st.selectRoomNID k s with ⟨r1, s1⟩
    cases r1 with
    | ok v => rfl
    | error e =>
      cases e with
      | failure n => rfl
      | errNoRows =>
        rcases hi : st.insertRoomNID k s1 with ⟨r2, s2⟩
        cases r2 with
        | ok v => rfl
        | error e2 => cases e2 <;> rfl
  · intro σ st k s
    simp only [Database.assignEventTypeNID, selectInsertReselectSpec]
    rcases hs : st.selectEventTypeNID k s with ⟨r1, s1⟩
    cases r1 with
    | ok v => rfl
    | error e =>
      cases e with
      | failure n => rfl
      | errNoRows =>
        rcases hi : st.insertEventTypeNID k s1 with ⟨r2, s2⟩
        cases r2 with
        | ok v => rfl
        | error e2 => cases e2 <;> rfl
  · intro σ st k s
    simp only [Database.assignStateKeyNID, selectInsertReselectSpec]
    rcases hs : st.selectEventStateKeyNID k s with ⟨r1, s1⟩
    cases r1 with
    | ok v => rfl
    | error e =>
      cases e with
      | failure n => rfl
      | errNoRows =>
        rcases hi : st.insertEventStateKeyNID k s1 with ⟨r2, s2⟩
        cases r2 with
        | ok v => rfl
        | error e2 => cases e2 <;> rfl
  · intro σ sel ins s s1
    refine ⟨?_, ?_, ?_⟩
    · intro v h
      simp only [selectInsertReselectSpec, h]
    · intro e he h
      cases e with
      | errNoRows => exact absurd rfl he
      | failure n => simp only [selectInsertReselectSpec, h]
    · intro h
      refine ⟨?_, ?_, ?_⟩
      · intro v s2 hi
        simp only [selectInsertReselectSpec, h, hi]
      · intro e s2 he hi
        cases e with
        | errNoRows => exact absurd rfl he
        | failure n => simp only [selectInsertReselectSpec, h, hi]
      · intro s2 hi
        simp only [selectInsertReselectSpec, h, hi]

/-- Witness for C3: the select-insert-reselect algorithm at a concrete
instance in which both the select and the insert report not found, so
the single reselect's own not-found result is returned verbatim. -/
theorem assignNID_follows_selectInsertReselect_witness :
    selectInsertReselectSpec (fun _ => ((.error .errNoRows : Except DBError Nat), ()))
      (fun _ => ((.error .errNoRows : Except DBError Nat), ())) () = (.error .errNoRows, ()) := by
  have h :=
    ((assignNID_follows_selectInsertReselect.2.2.2 Unit
        (fun _ => ((.error .errNoRows : Except DBError Nat), ()))
        (fun _ => ((.error .errNoRows : Except DBError Nat), ())) () ()).2.2 rfl).2.2 () rfl
  exact h.trans rfl

/-- Claim C9: GetTransactionEventID returns the recorded event id when
a matching record exists, an empty string with no error when no record
matches, and propagates any lookup failure other than the not-found
sentinel as an error. -/
theorem getTransactionEventID_spec :
    (∀ (tid : String) (sid : Int) (uid : String) (s : DBState) (eid : String),
      alookup (tid, sid, uid) s.txnRows = some eid →
      Database.GetTransactionEventID sqliteStatements tid sid uid s = (.ok eid, s)) ∧
    (∀ (tid : String) (sid : Int) (uid : String) (s : DBState),
      alookup (tid, sid, uid) s.txnRows = none →
      Database.GetTransactionEventID sqliteStatements tid sid uid s = (.ok "", s)) ∧
    (∀ (σ : Type) (st : Statements σ) (tid : String) (sid : Int) (uid : String) (s s1 : σ) (e : DBError),
      e ≠ DBError.errNoRows →
      st.selectTransactionEventID tid sid uid s = (.error e, s1) →
      Database.GetTransactionEventID st tid sid uid s = (.error e, s1)) := by
  refine ⟨?_, ?_, ?_⟩
  · intro tid sid uid s eid h
    simp [Database.GetTransactionEventID, sqliteStatements, h]
  · intro tid sid uid s h
    simp [Database.GetTransactionEventID, sqliteStatements, h]
  · intro σ st tid sid uid s s1 e he h
    cases e with
    | errNoRows => exact absurd rfl he
    | failure n => simp [Database.GetTransactionEventID, h]

/-- Witness for C9: a store holding one recorded transaction key and a
lookup that misses, both evaluated concretely. -/
theorem getTransactionEventID_spec_witness :
    Database.GetTransactionEventID sqliteStatements "txn1" 5 "alice"
      { DBState.empty with txnRows := [(("txn1", 5, "alice"), "ev9")] } =
      (.ok "ev9", { DBState.empty with txnRows := [(("txn1", 5, "alice"), "ev9")] }) ∧
    Database.GetTransactionEventID sqliteStatements "txn2" 5 "alice"
      { DBState.empty with txnRows := [(("txn1", 5, "alice"), "ev9")] } =
      (.ok "", { DBState.empty with txnRows := [(("txn1", 5, "alice"), "ev9")] }) := by
  constructor
  · exact getTransactionEventID_spec.1 "txn1" 5 "alice" _ "ev9" (by decide)
  · exact getTransactionEventID_spec.2.1 "txn2" 5 "alice" _ (by decide)

/-- Claim C10: Database.RoomNID returns the zero NID with no error for
a never-interned room id, the assigned (non-zero, given that every
stored room NID was minted from the positive counter) NID for a known
room id, and propagates any failure other than the not-found sentinel;
additionally, interning through assignRoomNID only ever stores
positive NIDs. -/
theorem roomNID_spec :
    (∀ (roomID : String) (s : DBState),
      alookup roomID s.rooms = none →
      Database.RoomNID sqliteStatements roomID s = (.ok 0, s)) ∧
    (∀ (roomID : String) (s : DBState) (nid : types.RoomNID),
      alookup roomID s.rooms = some nid →
      Database.RoomNID sqliteStatements roomID s = (.ok nid, s)) ∧
    (∀ (roomID : String) (s : DBState) (nid : types.RoomNID),
      alookup roomID s.rooms = some nid →
      (∀ p ∈ s.rooms, 0 < p.2) → nid ≠ 0) ∧
    (∀ (roomID : String) (s : DBState),
      0 < s.nextRoomNID → (∀ p ∈ s.rooms, 0 < p.2) →
      ∃ nid s2, Database.assignRoomNID sqliteStatements roomID s = (.ok nid, s2) ∧
        0 < nid ∧ 0 < s2.nextRoomNID ∧ ∀ p ∈ s2.rooms, 0 < p.2) ∧
    (∀ (σ : Type) (st : Statements σ) (roomID : String) (s s1 : σ) (e : DBError),
      e ≠ DBError.errNoRows →
      st.selectRoomNID roomID s = (.error e, s1) →
      Database.RoomNID st roomID s = (.error e, s1)) := by
  refine ⟨?_, ?_, ?_, ?_, ?_⟩
  · intro roomID s h
    simp [Database.RoomNID, sqliteStatements, h]
  · intro roomID s nid h
    simp [Database.RoomNID, sqliteStatements, h]
  · intro roomID s nid h hpos
    have hm := alookup_mem h
    have h2 : 0 < (roomID, nid).2 := hpos _ hm
    intro h0
    rw [h0] at h2
    exact Nat.lt_irrefl 0 h2
  · intro roomID s hnext hpos
    cases h : alookup roomID s.rooms with
    | some n =>
      refine ⟨n, s, ?_, ?_, hnext, hpos⟩
      · simp [Database.assignRoomNID, sqliteStatements, h]
      · have hm := alookup_mem h
        exact hpos _ hm
    | none =>
      refine ⟨s.nextRoomNID,
        { s with rooms := (roomID, s.nextRoomNID) :: s.rooms, nextRoomNID := s.nextRoomNID + 1 },
        ?_, hnext, ?_, ?_⟩
      · simp [Database.assignRoomNID, sqliteStatements, h]
      · simp
      · intro p hp
        simp at hp
        rcases hp with hp | hp
        · rw [hp]; exact hnext
        · exact hpos _ hp
  · intro σ st roomID s s1 e he h
    cases e with
    | errNoRows => exact absurd rfl he
    | failure n => simp [Database.RoomNID, h]

/-- Witness for C10: the concrete lookups on a store with one interned
room. -/
theorem roomNID_spec_witness :
    Database.RoomNID sqliteStatements "room1"
      { DBState.empty with rooms := [("room1", 1)], nextRoomNID := 2 } =
      (.ok 1, { DBState.empty with rooms := [("room1", 1)], nextRoomNID := 2 }) ∧
    Database.RoomNID sqliteStatements "room2"
      { DBState.empty with rooms := [("room1", 1)], nextRoomNID := 2 } =
      (.ok 0, { DBState.empty with rooms := [("room1", 1)], nextRoomNID := 2 }) ∧
    (1 : types.RoomNID) ≠ 0 := by
  refine ⟨?_, ?_, ?_⟩
  · exact roomNID_spec.2.1 "room1" _ 1 (by decide)
  · exact roomNID_spec.1 "room2" _ (by decide)
  · exact roomNID_spec.2.2.1 "room1"
      { DBState.empty with rooms := [("room1", 1)], nextRoomNID := 2 } 1 (by decide) (by decide)

/-- Claim C6 evaluation: inside AddState the first two store failures
of the closure are lost.  When selectNextStateBlockNID or
bulkInsertStateData fails, the inner (shadowed) error makes the
closure return early, WithTransaction's error return value is
discarded, and the outer error variable stays nil, so AddState reports
success with the zero snapshot NID (first two conjuncts); only an
insertState failure reaches the outer error variable and is surfaced
(third conjunct). -/
theorem addState_swallows_store_errors :
    Database.AddState { unitStatements with selectNextStateBlockNID := fun s => (.error (.failure 1), s) }
      7 [[]] { buf := 0, len := 0, cap := 0 }
      [{ stateKeyTuple := { eventTypeNID := 1, eventStateKeyNID := 0 }, eventNID := 2 }] () =
      (.ok 0, (), [[]]) ∧
    Database.AddState { unitStatements with bulkInsertStateData := fun _ _ s => (.error (.failure 2), s) }
      7 [[]] { buf := 0, len := 0, cap := 0 }
      [{ stateKeyTuple := { eventTypeNID := 1, eventStateKeyNID := 0 }, eventNID := 2 }] () =
      (.ok 0, (), [[]]) ∧
    Database.AddState { unitStatements with insertState := fun _ _ s => (.error (.failure 3), s) }
      7 [[]] { buf := 0, len := 0, cap := 0 }
      [{ stateKeyTuple := { eventTypeNID := 1, eventStateKeyNID := 0 }, eventNID := 2 }] () =
      (.error (.failure 3), (), [[], [0]]) := by
  exact ⟨rfl, rfl, rfl⟩

/-- Claim C1 evaluation: SetLatestEvents writes the frontier with a nil
transaction argument (storage.go line 438), so the write escapes the
session transaction obtained from GetLatestEventsForUpdate; after
Rollback the committed store holds the new frontier tuple, not the
tuple that was committed before the session opened. -/
theorem setLatestEvents_escapes_rollback :
    (Database.GetLatestEventsForUpdate sqliteStatements 1
        { committed := { DBState.empty with latest := [(1, { eventNIDs := [], lastEventNIDSent := 0, stateSnapshotNID := 7 })] }, txn := none } =
      (.ok { roomNID := 1, latestEvents := [], lastEventIDSent := "", currentStateSnapshotNID := 7 },
        { committed := { DBState.empty with latest := [(1, { eventNIDs := [], lastEventNIDSent := 0, stateSnapshotNID := 7 })] },
          txn := some { DBState.empty with latest := [(1, { eventNIDs := [], lastEventNIDSent := 0, stateSnapshotNID := 7 })] } })) ∧
    (roomRecentEventsUpdater.SetLatestEvents sqliteStatements
        { roomNID := 1, latestEvents := [], lastEventIDSent := "", currentStateSnapshotNID := 7 }
        1 [{ eventNID := 3, eventID := "e3" }] 3 9
        { committed := { DBState.empty with latest := [(1, { eventNIDs := [], lastEventNIDSent := 0, stateSnapshotNID := 7 })] },
          txn := some { DBState.empty with latest := [(1, { eventNIDs := [], lastEventNIDSent := 0, stateSnapshotNID := 7 })] } } =
      (.ok (),
        { committed := { DBState.empty with latest := [(1, { eventNIDs := [3], lastEventNIDSent := 3, stateSnapshotNID := 9 })] },
          txn := some { DBState.empty with latest := [(1, { eventNIDs := [], lastEventNIDSent := 0, stateSnapshotNID := 7 })] } })) ∧
    (transaction.Rollback
        { committed := { DBState.empty with latest := [(1, { eventNIDs := [3], lastEventNIDSent := 3, stateSnapshotNID := 9 })] },
          txn := some { DBState.empty with latest := [(1, { eventNIDs := [], lastEventNIDSent := 0, stateSnapshotNID := 7 })] } }).committed.latest =
      [(1, { eventNIDs := [3], lastEventNIDSent := 3, stateSnapshotNID := 9 })] ∧
    ({ eventNIDs := [3], lastEventNIDSent := 3, stateSnapshotNID := 9 } : FrontierRow) ≠
      { eventNIDs := [], lastEventNIDSent := 0, stateSnapshotNID := 7 } := by
  exact ⟨rfl, rfl, rfl, by decide⟩

/-- Claim C2 evaluation: Database.Events sizes its result slice from
the length of eventJSONs before the query that fills eventJSONs has
run, so the slice has length zero; with one stored event body the
first indexed write is out of range and the call panics instead of
returning a one-element list (first conjunct); only the empty result
survives (second conjunct). -/
theorem events_undersized_result_panics :
    Database.Events sqliteStatements (fun _ => .ok default) [1]
        { DBState.empty with eventJSON := [(1, "body1")] } =
      .panicked "index out of range" ∧
    Database.Events sqliteStatements (fun _ => .ok default) []
        { DBState.empty with eventJSON := [(1, "body1")] } =
      .ok (.ok [], { DBState.empty with eventJSON := [(1, "body1")] }) := by
  exact ⟨rfl, rfl⟩

lemma getD_append_lt {α : Type} (l l2 : List α) (d : α) (i : Nat) (h : i < l.length) :
    (l ++ l2).getD i d = l.getD i d := by
  induction l generalizing i with
  | nil => simp at h
  | cons a rest ih =>
    cases i with
    | zero => simp
    | succ n =>
      simp only [List.cons_append, List.getD_cons_succ]
      exact ih n (by simpa using h)

lemma getD_append_length {α : Type} (l : List α) (x d : α) :
    (l ++ [x]).getD l.length d = x := by
  induction l with
  | nil => simp
  | cons a rest ih => simp [ih]

/-- A slice header denotes a real region of the heap. -/
abbrev sliceWF (heap : Heap) (sl : NIDSlice) : Prop :=
  sl.buf < heap.length ∧ sl.len ≤ (heap.getD sl.buf []).length

/-- Every stored state block was minted below the block counter. -/
abbrev blocksWF (s : DBState) : Prop :=
  ∀ p ∈ s.stateBlocks, p.1 < s.nextStateBlockNID

/-- Claim C5: AddState is non-destructive.  With non-empty new entries
it allocates the fresh StateBlockNID from the counter, stores the
entries under it, and persists a snapshot whose block list is the
caller's viewed block list with the fresh block appended; every
previously stored block resolves exactly as before, and the caller's
slice and every pre-existing heap buffer are untouched (the full slice
expression forces the append to reallocate).  With empty new entries
the snapshot holds the caller's block list unchanged and neither the
block table nor the heap changes. -/
theorem addState_nondestructive (room : types.RoomNID) (heap : Heap) (sl : NIDSlice)
    (entries : List types.StateEntry) (s : DBState)
    (hwf : sliceWF heap sl) (hblocks : blocksWF s) :
    ∃ snap s2 h2,
      Database.AddState sqliteStatements room heap sl entries s = (.ok snap, s2, h2) ∧
      snap = s.nextSnapshotNID ∧
      (entries = [] →
        alookup snap s2.snapshots = some (room, view heap sl) ∧
        s2.stateBlocks = s.stateBlocks ∧ h2 = heap) ∧
      (entries ≠ [] →
        alookup snap s2.snapshots = some (room, view heap sl ++ [s.nextStateBlockNID]) ∧
        alookup s.nextStateBlockNID s2.stateBlocks = some entries ∧
        (∀ p ∈ s.stateBlocks, alookup p.1 s2.stateBlocks = alookup p.1 s.stateBlocks) ∧
        view h2 sl = view heap sl ∧
        (∀ i, i < heap.length → h2.getD i [] = heap.getD i [])) := by
  obtain ⟨hbuf, hlen⟩ := hwf
  cases entries with
  | nil =>
    refine ⟨s.nextSnapshotNID,
      { s with snapshots := (s.nextSnapshotNID, (room, view heap sl)) :: s.snapshots,
               nextSnapshotNID := s.nextSnapshotNID + 1 },
      heap, rfl, rfl, ?_, ?_⟩
    · intro _
      refine ⟨?_, rfl, rfl⟩
      simp [alookup]
    · intro hne
      exact absurd rfl hne
  | cons a rest =>
    have hgo : goAppend heap (fullSliceExpr sl) s.nextStateBlockNID =
        (heap ++ [view heap sl ++ [s.nextStateBlockNID]],
         { buf := heap.length, len := sl.len + 1, cap := sl.len + 1 }) := by
      simp [goAppend, fullSliceExpr, view]
    have hview : (view heap sl).length = sl.len := by
      simp only [view, List.length_take]
      omega
    have hw2 : view (heap ++ [view heap sl ++ [s.nextStateBlockNID]])
        { buf := heap.length, len := sl.len + 1, cap := sl.len + 1 } =
        view heap sl ++ [s.nextStateBlockNID] := by
      simp only [view]
      rw [getD_append_length]
      apply List.take_of_length_le
      simp [hview]
    refine ⟨s.nextSnapshotNID,
      { s with nextStateBlockNID := s.nextStateBlockNID + 1,
               stateBlocks := (s.nextStateBlockNID, a :: rest) :: s.stateBlocks,
               snapshots := (s.nextSnapshotNID, (room, view heap sl ++ [s.nextStateBlockNID])) :: s.snapshots,
               nextSnapshotNID := s.nextSnapshotNID + 1 },
      heap ++ [view heap sl ++ [s.nextStateBlockNID]], ?_, rfl, ?_, ?_⟩
    · simp only [Database.AddState, sqliteStatements, hgo]
      simp [hw2]
    · intro h
      exact absurd h (by simp)
    · intro _
      refine ⟨by simp [alookup], by simp [alookup], ?_, ?_, ?_⟩
      · intro p hp
        have hlt := hblocks p hp
        have hne : s.nextStateBlockNID ≠ p.1 := (Nat.ne_of_lt hlt).symm
        simp [alookup, hne]
      · simp only [view]
        rw [getD_append_lt heap _ [] sl.buf hbuf]
      · intro i hi
        exact getD_append_lt heap _ [] i hi

/-- Witness for C5: a one-element caller slice over a one-buffer heap
and a store already holding one block, evaluated concretely. -/
theorem addState_nondestructive_witness :
    sliceWF [[5]] { buf := 0, len := 1, cap := 1 } ∧
    blocksWF { DBState.empty with
                 stateBlocks := [(1, [{ stateKeyTuple := { eventTypeNID := 1, eventStateKeyNID := 0 }, eventNID := 9 }])],
                 nextStateBlockNID := 2 } ∧
    (∃ snap s2 h2,
      Database.AddState sqliteStatements 1 [[5]] { buf := 0, len := 1, cap := 1 }
          [{ stateKeyTuple := { eventTypeNID := 1, eventStateKeyNID := 0 }, eventNID := 2 }]
          { DBState.empty with
              stateBlocks := [(1, [{ stateKeyTuple := { eventTypeNID := 1, eventStateKeyNID := 0 }, eventNID := 9 }])],
              nextStateBlockNID := 2 } = (.ok snap, s2, h2) ∧
      snap = ({ DBState.empty with
                  stateBlocks := [(1, [{ stateKeyTuple := { eventTypeNID := 1, eventStateKeyNID := 0 }, eventNID := 9 }])],
                  nextStateBlockNID := 2 } : DBState).nextSnapshotNID ∧
      (([{ stateKeyTuple := { eventTypeNID := 1, eventStateKeyNID := 0 }, eventNID := 2 }] : List types.StateEntry) = [] →
        alookup snap s2.snapshots = some (1, view [[5]] { buf := 0, len := 1, cap := 1 }) ∧
        s2.stateBlocks = ({ DBState.empty with
                              stateBlocks := [(1, [{ stateKeyTuple := { eventTypeNID := 1, eventStateKeyNID := 0 }, eventNID := 9 }])],
                              nextStateBlockNID := 2 } : DBState).stateBlocks ∧ h2 = [[5]]) ∧
      (([{ stateKeyTuple := { eventTypeNID := 1, eventStateKeyNID := 0 }, eventNID := 2 }] : List types.StateEntry) ≠ [] →
        alookup snap s2.snapshots =
          some (1, view [[5]] { buf := 0, len := 1, cap := 1 } ++
            [({ DBState.empty with
                  stateBlocks := [(1, [{ stateKeyTuple := { eventTypeNID := 1, eventStateKeyNID := 0 }, eventNID := 9 }])],
                  nextStateBlockNID := 2 } : DBState).nextStateBlockNID]) ∧
        alookup ({ DBState.empty with
                     stateBlocks := [(1, [{ stateKeyTuple := { eventTypeNID := 1, eventStateKeyNID := 0 }, eventNID := 9 }])],
                     nextStateBlockNID := 2 } : DBState).nextStateBlockNID s2.stateBlocks =
          some [{ stateKeyTuple := { eventTypeNID := 1, eventStateKeyNID := 0 }, eventNID := 2 }] ∧
        (∀ p ∈ ({ DBState.empty with
                    stateBlocks := [(1, [{ stateKeyTuple := { eventTypeNID := 1, eventStateKeyNID := 0 }, eventNID := 9 }])],
                    nextStateBlockNID := 2 } : DBState).stateBlocks,
            alookup p.1 s2.stateBlocks =
              alookup p.1 ({ DBState.empty with
                               stateBlocks := [(1, [{ stateKeyTuple := { eventTypeNID := 1, eventStateKeyNID := 0 }, eventNID := 9 }])],
                               nextStateBlockNID := 2 } : DBState).stateBlocks) ∧
        view h2 { buf := 0, len := 1, cap := 1 } = view [[5]] { buf := 0, len := 1, cap := 1 } ∧
        (∀ i, i < ([[5]] : Heap).length → h2.getD i [] = ([[5]] : Heap).getD i []))) := by
  refine ⟨by decide, by decide, ?_⟩
  exact addState_nondestructive 1 [[5]] { buf := 0, len := 1, cap := 1 }
    [{ stateKeyTuple := { eventTypeNID := 1, eventStateKeyNID := 0 }, eventNID := 2 }]
    { DBState.empty with
        stateBlocks := [(1, [{ stateKeyTuple := { eventTypeNID := 1, eventStateKeyNID := 0 }, eventNID := 9 }])],
        nextStateBlockNID := 2 } (by decide) (by decide)

lemma assignRoomNID_run (k : String) (s : DBState) :
    ∃ nid s2, Database.assignRoomNID sqliteStatements k s = (.ok nid, s2) ∧
      alookup k s2.rooms = some nid ∧
      s2.eventTypes = s.eventTypes ∧ s2.nextEventTypeNID = s.nextEventTypeNID ∧
      s2.stateKeys = s.stateKeys ∧ s2.nextStateKeyNID = s.nextStateKeyNID ∧
      s2.events = s.events ∧ s2.nextEventNID = s.nextEventNID ∧
      s2.eventJSON = s.eventJSON ∧ s2.txnRows = s.txnRows ∧
      s2.stateBlocks = s.stateBlocks ∧ s2.nextStateBlockNID = s.nextStateBlockNID ∧
      s2.snapshots = s.snapshots ∧ s2.nextSnapshotNID = s.nextSnapshotNID ∧
      s2.latest = s.latest ∧ s2.invites = s.invites ∧ s2.memberships = s.memberships := by
  cases h : alookup k s.rooms with
  | some n =>
    exact ⟨n, s, by simp [Database.assignRoomNID, sqliteStatements, h], h, by simp⟩
  | none =>
    exact ⟨s.nextRoomNID,
      { s with rooms := (k, s.nextRoomNID) :: s.rooms, nextRoomNID := s.nextRoomNID + 1 },
      by simp [Database.assignRoomNID, sqliteStatements, h], by simp [alookup], by simp⟩

lemma assignEventTypeNID_run (k : String) (s : DBState) :
    ∃ nid s2, Database.assignEventTypeNID sqliteStatements k s = (.ok nid, s2) ∧
      alookup k s2.eventTypes = some nid ∧
      s2.rooms = s.rooms ∧ s2.nextRoomNID = s.nextRoomNID ∧
      s2.stateKeys = s.stateKeys ∧ s2.nextStateKeyNID = s.nextStateKeyNID ∧
      s2.events = s.events ∧ s2.nextEventNID = s.nextEventNID ∧
      s2.eventJSON = s.eventJSON ∧ s2.txnRows = s.txnRows ∧
      s2.stateBlocks = s.stateBlocks ∧ s2.nextStateBlockNID = s.nextStateBlockNID ∧
      s2.snapshots = s.snapshots ∧ s2.nextSnapshotNID = s.nextSnapshotNID ∧
      s2.latest = s.latest ∧ s2.invites = s.invites ∧ s2.memberships = s.memberships := by
  cases h : alookup k s.eventTypes with
  | some n =>
    exact ⟨n, s, by simp [Database.assignEventTypeNID, sqliteStatements, h], h, by simp⟩
  | none =>
    exact ⟨s.nextEventTypeNID,
      { s with eventTypes := (k, s.nextEventTypeNID) :: s.eventTypes, nextEventTypeNID := s.nextEventTypeNID + 1 },
      by simp [Database.assignEventTypeNID, sqliteStatements, h], by simp [alookup], by simp⟩

lemma assignStateKeyNID_run (k : String) (s : DBState) :
    ∃ nid s2, Database.assignStateKeyNID sqliteStatements k s = (.ok nid, s2) ∧
      alookup k s2.stateKeys = some nid ∧
      s2.rooms = s.rooms ∧ s2.nextRoomNID = s.nextRoomNID ∧
      s2.eventTypes = s.eventTypes ∧ s2.nextEventTypeNID = s.nextEventTypeNID ∧
      s2.events = s.events ∧ s2.nextEventNID = s.nextEventNID ∧
      s2.eventJSON = s.eventJSON ∧ s2.txnRows = s.txnRows ∧
      s2.stateBlocks = s.stateBlocks ∧ s2.nextStateBlockNID = s.nextStateBlockNID ∧
      s2.snapshots = s.snapshots ∧ s2.nextSnapshotNID = s.nextSnapshotNID ∧
      s2.latest = s.latest ∧ s2.invites = s.invites ∧ s2.memberships = s.memberships := by
  cases h : alookup k s.stateKeys with
  | some n =>
    exact ⟨n, s, by simp [Database.assignStateKeyNID, sqliteStatements, h], h, by simp⟩
  | none =>
    exact ⟨s.nextStateKeyNID,
      { s with stateKeys := (k, s.nextStateKeyNID) :: s.stateKeys, nextStateKeyNID := s.nextStateKeyNID + 1 },
      by simp [Database.assignStateKeyNID, sqliteStatements, h], by simp [alookup], by simp⟩

/-- Claim C8: SetToInvite records the invite keyed by the event id and
returns true exactly when it was newly inserted (a duplicate is a
no-op reported as false, not an error), and it writes the membership
row to Invite with a zero associated EventNID if and only if the state
read at session open is not Invite. -/
theorem setToInvite_spec (u : membershipUpdater) (event : GEvent) (s : DBState) :
    ∃ senderNID sA b s2,
      Database.assignStateKeyNID sqliteStatements event.sender s = (.ok senderNID, sA) ∧
      membershipUpdater.SetToInvite sqliteStatements u event s = (.ok b, s2) ∧
      (b = true ↔ inviteExists event.eventID s.invites = false) ∧
      (inviteExists event.eventID s.invites = true → s2.invites = s.invites) ∧
      (inviteExists event.eventID s.invites = false →
        s2.invites = s.invites ++
          [{ eventID := event.eventID, roomNID := u.roomNID, targetUserNID := u.targetUserNID,
             senderUserNID := senderNID, json := event.json, retired := false }]) ∧
      (u.membership ≠ membershipState.invite →
        s2.memberships = aupdate (u.roomNID, u.targetUserNID)
          (fun _ => { senderUserNID := senderNID, membership := membershipState.invite, eventNID := 0 })
          s.memberships) ∧
      (u.membership = membershipState.invite → s2.memberships = s.memberships) := by
  obtain ⟨kn, sA, hA, hAl, hR, hnR, hET, hnET, hEV, hnEV, hJ, hTX, hSB, hnSB, hSN, hnSN, hL, hINV, hMEM⟩ :=
    assignStateKeyNID_run event.sender s
  cases hex : inviteExists event.eventID s.invites with
  | false =>
    by_cases hm : u.membership = membershipState.invite
    · refine ⟨kn, sA, true,
        { sA with invites := sA.invites ++
            [{ eventID := event.eventID, roomNID := u.roomNID, targetUserNID := u.targetUserNID,
               senderUserNID := kn, json := event.json, retired := false }] },
        hA, ?_, by simp, by simp [hex], ?_, ?_, ?_⟩
      · simp only [membershipUpdater.SetToInvite, hA, andThen]
        simp [sqliteStatements, hINV, hex, hm]
      · intro _
        simp [hINV]
      · intro hne
        exact absurd hm hne
      · intro _
        exact hMEM
    · refine ⟨kn, sA, true,
        { sA with
            invites := sA.invites ++
              [{ eventID := event.eventID, roomNID := u.roomNID, targetUserNID := u.targetUserNID,
                 senderUserNID := kn, json := event.json, retired := false }],
            memberships := aupdate (u.roomNID, u.targetUserNID)
              (fun _ => { senderUserNID := kn, membership := membershipState.invite, eventNID := 0 })
              sA.memberships },
        hA, ?_, by simp, by simp [hex], ?_, ?_, ?_⟩
      · simp only [membershipUpdater.SetToInvite, hA, andThen]
        simp [sqliteStatements, hINV, hex, hm]
      · intro _
        simp [hINV]
      · intro _
        simp [hMEM]
      · intro heq
        exact absurd heq hm
  | true =>
    by_cases hm : u.membership = membershipState.invite
    · refine ⟨kn, sA, false, sA, hA, ?_, by simp [hex], ?_, ?_, ?_, ?_⟩
      · simp only [membershipUpdater.SetToInvite, hA, andThen]
        simp [sqliteStatements, hINV, hex, hm]
      · intro _
        exact hINV
      · intro hfalse
        simp at hfalse
      · intro hne
        exact absurd hm hne
      · intro _
        exact hMEM
    · refine ⟨kn, sA, false,
        { sA with
            memberships := aupdate (u.roomNID, u.targetUserNID)
              (fun _ => { senderUserNID := kn, membership := membershipState.invite, eventNID := 0 })
              sA.memberships },
        hA, ?_, by simp [hex], ?_, ?_, ?_, ?_⟩
      · simp only [membershipUpdater.SetToInvite, hA, andThen]
        simp [sqliteStatements, hINV, hex, hm]
      · intro _
        exact hINV
      · intro hfalse
        simp at hfalse
      · intro _
        simp [hMEM]
      · intro heq
        exact absurd heq hm

lemma retireInvites_fst (room target : Nat) (l : List InviteRow) :
    (retireInvites room target l).1 =
      (l.filter (fun i =>
        decide (i.roomNID = room ∧ i.targetUserNID = target ∧ i.retired = false))).map
        (fun i => i.eventID) := by
  induction l with
  | nil => simp [retireInvites]
  | cons inv rest ih =>
    by_cases hc : inv.roomNID = room ∧ inv.targetUserNID = target ∧ inv.retired = false
    · simp [retireInvites, hc, ih]
    · simp [retireInvites, hc, ih]

lemma retireInvites_snd (room target : Nat) (l : List InviteRow) :
    (retireInvites room target l).2 =
      l.map (fun i =>
        if i.roomNID = room ∧ i.targetUserNID = target ∧ i.retired = false then
          { i with retired := true } else i) := by
  induction l with
  | nil => simp [retireInvites]
  | cons inv rest ih =>
    by_cases hc : inv.roomNID = room ∧ inv.targetUserNID = target ∧ inv.retired = false
    · simp [retireInvites, hc, ih]
    · simp [retireInvites, hc, ih]

/-- Claim C7: SetToJoin with isUpdate false retires exactly the
outstanding non-retired invites of the (room, target) pair and returns
their event ids, while with isUpdate true it retires none and returns
the empty list; and it writes the membership row (state Join,
associated EventNID resolved from the event id, zero when unknown) if
and only if the state read at session open is not Join or isUpdate is
true — in particular a replayed join (isUpdate false) against a
session opened in Join state performs no membership write. -/
theorem setToJoin_spec (u : membershipUpdater) (senderUserID eventID : String) (isUpdate : Bool) (s : DBState) :
    ∃ senderNID sA ids s2,
      Database.assignStateKeyNID sqliteStatements senderUserID s = (.ok senderNID, sA) ∧
      membershipUpdater.SetToJoin sqliteStatements u senderUserID eventID isUpdate s = (.ok ids, s2) ∧
      (isUpdate = true → ids = [] ∧ s2.invites = s.invites) ∧
      (isUpdate = false →
        ids = (s.invites.filter (fun i =>
            decide (i.roomNID = u.roomNID ∧ i.targetUserNID = u.targetUserNID ∧ i.retired = false))).map
          (fun i => i.eventID) ∧
        s2.invites = s.invites.map (fun i =>
          if i.roomNID = u.roomNID ∧ i.targetUserNID = u.targetUserNID ∧ i.retired = false then
            { i with retired := true } else i)) ∧
      ((u.membership ≠ membershipState.join ∨ isUpdate = true) →
        s2.memberships = aupdate (u.roomNID, u.targetUserNID)
          (fun _ => { senderUserNID := senderNID, membership := membershipState.join,
                      eventNID := (match alookup eventID s.events with
                                   | some row => row.eventNID
                                   | none => 0) }) s.memberships) ∧
      (u.membership = membershipState.join ∧ isUpdate = false → s2.memberships = s.memberships) := by
  obtain ⟨kn, sA, hA, hAl, hR, hnR, hET, hnET, hEV, hnEV, hJ, hTX, hSB, hnSB, hSN, hnSN, hL, hINV, hMEM⟩ :=
    assignStateKeyNID_run senderUserID s
  cases isUpdate with
  | true =>
    refine ⟨kn, sA, [],
      { sA with
          memberships := aupdate (u.roomNID, u.targetUserNID)
            (fun _ => { senderUserNID := kn, membership := membershipState.join,
                        eventNID := (match alookup eventID s.events with
                                     | some row => row.eventNID
                                     | none => 0) })
            sA.memberships },
      hA, ?_, ?_, ?_, ?_, ?_⟩
    · simp only [membershipUpdater.SetToJoin, hA, andThen]
      cases he : alookup eventID s.events with
      | some row =>
        simp [sqliteStatements, Database.EventNIDs, selectNIDs, alookupD, alookup, hEV, he]
      | none =>
        simp [sqliteStatements, Database.EventNIDs, selectNIDs, alookupD, alookup, hEV, he]
    · intro _
      exact ⟨rfl, hINV⟩
    · intro hfalse
      simp at hfalse
    · intro _
      simp [hMEM]
    · intro h
      simp at h
  | false =>
    by_cases hm : u.membership = membershipState.join
    · refine ⟨kn, sA,
        (retireInvites u.roomNID u.targetUserNID sA.invites).1,
        { sA with invites := (retireInvites u.roomNID u.targetUserNID sA.invites).2 },
        hA, ?_, ?_, ?_, ?_, ?_⟩
      · simp only [membershipUpdater.SetToJoin, hA, andThen]
        simp [sqliteStatements, Database.EventNIDs, hm]
      · intro h
        simp at h
      · intro _
        constructor
        · rw [retireInvites_fst, hINV]
        · rw [retireInvites_snd, hINV]
      · intro hcond
        rcases hcond with hne | hfalse
        · exact absurd hm hne
        · simp at hfalse
      · intro _
        simp [hMEM]
    · refine ⟨kn, sA,
        (retireInvites u.roomNID u.targetUserNID sA.invites).1,
        { sA with
            invites := (retireInvites u.roomNID u.targetUserNID sA.invites).2,
            memberships := aupdate (u.roomNID, u.targetUserNID)
              (fun _ => { senderUserNID := kn, membership := membershipState.join,
                          eventNID := (match alookup eventID s.events with
                                       | some row => row.eventNID
                                       | none => 0) })
              sA.memberships },
        hA, ?_, ?_, ?_, ?_, ?_⟩
      · simp only [membershipUpdater.SetToJoin, hA, andThen]
        cases he : alookup eventID s.events with
        | some row =>
          simp [sqliteStatements, Database.EventNIDs, selectNIDs, alookupD, alookup, hEV, he, hm]
        | none =>
          simp [sqliteStatements, Database.EventNIDs, selectNIDs, alookupD, alookup, hEV, he, hm]
      · intro h
        simp at h
      · intro _
        constructor
        · rw [retireInvites_fst, hINV]
        · rw [retireInvites_snd, hINV]
      · intro _
        simp [hMEM]
      · intro h
        exact absurd h.1 hm

lemma storeEvent_run (e : GEvent) (auth : List types.EventNID) (s : DBState) :
    ∃ r sae s2, Database.StoreEvent sqliteStatements e none auth s = (.ok (r, sae), s2) ∧
      alookup e.eventID s2.events =
        some { eventNID := sae.stateEntry.eventNID, stateSnapshotNID := sae.beforeStateSnapshotNID } ∧
      (∀ row, alookup e.eventID s.events = some row →
        sae.stateEntry.eventNID = row.eventNID ∧ sae.beforeStateSnapshotNID = row.stateSnapshotNID) := by
  obtain ⟨rn, sA, hA, hAl, hAet, hAnet, hAsk, hAnsk, hAev, hAnev, hAj, hAtx, hAsb, hAnsb, hAsn, hAnsn, hAla, hAinv, hAmem⟩ :=
    assignRoomNID_run e.roomID s
  obtain ⟨tn, sB, hB, hBl, hBr, hBnr, hBsk, hBnsk, hBev, hBnev, hBj, hBtx, hBsb, hBnsb, hBsn, hBnsn, hBla, hBinv, hBmem⟩ :=
    assignEventTypeNID_run e.eventType sA
  cases hsk : e.stateKey with
  | none =>
    have hev : sB.events = s.events := by rw [hBev, hAev]
    have hnev : sB.nextEventNID = s.nextEventNID := by rw [hBnev, hAnev]
    cases hE : alookup e.eventID s.events with
    | none =>
      refine ⟨rn,
        { beforeStateSnapshotNID := 0,
          stateEntry := { stateKeyTuple := { eventTypeNID := tn, eventStateKeyNID := 0 },
                          eventNID := sB.nextEventNID } },
        { sB with
            events := (e.eventID, { eventNID := sB.nextEventNID, stateSnapshotNID := 0 }) :: sB.events,
            nextEventNID := sB.nextEventNID + 1,
            eventJSON := aupsert sB.nextEventNID e.json sB.eventJSON },
        ?_, ?_, ?_⟩
      · simp only [Database.StoreEvent, andThen, common.WithTransaction, hA]
        simp only [hB, hsk]
        simp only [sqliteStatements]
        simp [hev, hE]
      · simp [alookup]
      · intro row hrow
        exact Option.noConfusion hrow
    | some row =>
      refine ⟨rn,
        { beforeStateSnapshotNID := row.stateSnapshotNID,
          stateEntry := { stateKeyTuple := { eventTypeNID := tn, eventStateKeyNID := 0 },
                          eventNID := row.eventNID } },
        { sB with eventJSON := aupsert row.eventNID e.json sB.eventJSON },
        ?_, ?_, ?_⟩
      · simp only [Database.StoreEvent, andThen, common.WithTransaction, hA]
        simp only [hB, hsk]
        simp only [sqliteStatements]
        simp [hev, hE]
      · simp [hev, hE]
      · intro row2 hrow
        injection hrow with hr
        subst hr
        exact ⟨rfl, rfl⟩
  | some k =>
    obtain ⟨kn, sC, hC, hCl, hCr, hCnr, hCet, hCnet, hCev, hCnev, hCj, hCtx, hCsb, hCnsb, hCsn, hCnsn, hCla, hCinv, hCmem⟩ :=
      assignStateKeyNID_run k sB
    have hev : sC.events = s.events := by rw [hCev, hBev, hAev]
    have hnev : sC.nextEventNID = s.nextEventNID := by rw [hCnev, hBnev, hAnev]
    cases hE : alookup e.eventID s.events with
    | none =>
      refine ⟨rn,
        { beforeStateSnapshotNID := 0,
          stateEntry := { stateKeyTuple := { eventTypeNID := tn, eventStateKeyNID := kn },
                          eventNID := sC.nextEventNID } },
        { sC with
            events := (e.eventID, { eventNID := sC.nextEventNID, stateSnapshotNID := 0 }) :: sC.events,
            nextEventNID := sC.nextEventNID + 1,
            eventJSON := aupsert sC.nextEventNID e.json sC.eventJSON },
        ?_, ?_, ?_⟩
      · simp only [Database.StoreEvent, andThen, common.WithTransaction, hA]
        simp only [hB, hsk]
        simp only [hC]
        simp only [sqliteStatements]
        simp [hev, hE]
      · simp [alookup]
      · intro row hrow
        exact Option.noConfusion hrow
    | some row =>
      refine ⟨rn,
        { beforeStateSnapshotNID := row.stateSnapshotNID,
          stateEntry := { stateKeyTuple := { eventTypeNID := tn, eventStateKeyNID := kn },
                          eventNID := row.eventNID } },
        { sC with eventJSON := aupsert row.eventNID e.json sC.eventJSON },
        ?_, ?_, ?_⟩
      · simp only [Database.StoreEvent, andThen, common.WithTransaction, hA]
        simp only [hB, hsk]
        simp only [hC]
        simp only [sqliteStatements]
        simp [hev, hE]
      · simp [hev, hE]
      · intro row2 hrow
        injection hrow with hr
        subst hr
        exact ⟨rfl, rfl⟩

/-- Claim C4: StoreEvent is idempotent in the event id — storing an
event whose id is already stored makes the insert report the duplicate
sentinel, and StoreEvent falls back to selecting the existing event's
NID and state snapshot NID and returns those, so both calls succeed
and return the same EventNID and snapshot NID. -/
theorem storeEvent_idempotent (e : GEvent) (auth : List types.EventNID) (s : DBState) :
    ∃ r1 sae1 s1 r2 sae2 s2,
      Database.StoreEvent sqliteStatements e none auth s = (.ok (r1, sae1), s1) ∧
      Database.StoreEvent sqliteStatements e none auth s1 = (.ok (r2, sae2), s2) ∧
      sae2.stateEntry.eventNID = sae1.stateEntry.eventNID ∧
      sae2.beforeStateSnapshotNID = sae1.beforeStateSnapshotNID ∧
      (∀ row, alookup e.eventID s.events = some row →
        sae1.stateEntry.eventNID = row.eventNID ∧
        sae1.beforeStateSnapshotNID = row.stateSnapshotNID) := by
  obtain ⟨r1, sae1, s1, h1, hl1, hfb1⟩ := storeEvent_run e auth s
  obtain ⟨r2, sae2, s2, h2, hl2, hfb2⟩ := storeEvent_run e auth s1
  have hsame := hfb2 _ hl1
  exact ⟨r1, sae1, s1, r2, sae2, s2, h1, h2, hsame.1, hsame.2, hfb1⟩

/-- Witness for C4: the double store of one concrete message event on
the empty store. -/
theorem storeEvent_idempotent_witness :
    ∃ r1 sae1 s1 r2 sae2 s2,
      Database.StoreEvent sqliteStatements
        { eventID := "$e1", roomID := "!abc", eventType := "m.room.message", stateKey := none,
          sender := "alice", sha256 := "h1", depth := 1, json := "body1" } none [] DBState.empty =
        (.ok (r1, sae1), s1) ∧
      Database.StoreEvent sqliteStatements
        { eventID := "$e1", roomID := "!abc", eventType := "m.room.message", stateKey := none,
          sender := "alice", sha256 := "h1", depth := 1, json := "body1" } none [] s1 =
        (.ok (r2, sae2), s2) ∧
      sae2.stateEntry.eventNID = sae1.stateEntry.eventNID ∧
      sae2.beforeStateSnapshotNID = sae1.beforeStateSnapshotNID ∧
      (∀ row, alookup "$e1" DBState.empty.events = some row →
        sae1.stateEntry.eventNID = row.eventNID ∧
        sae1.beforeStateSnapshotNID = row.stateSnapshotNID) :=
  storeEvent_idempotent
    { eventID := "$e1", roomID := "!abc", eventType := "m.room.message", stateKey := none,
      sender := "alice", sha256 := "h1", depth := 1, json := "body1" } [] DBState.empty

/-- Witness for C8: one invite recorded against the empty store from a
session opened in the Unset state. -/
theorem setToInvite_spec_witness :
    ∃ senderNID sA b s2,
      Database.assignStateKeyNID sqliteStatements "alice" DBState.empty = (.ok senderNID, sA) ∧
      membershipUpdater.SetToInvite sqliteStatements
        { roomNID := 1, targetUserNID := 2, membership := membershipState.unset }
        { eventID := "$i1", roomID := "!abc", eventType := "m.room.member", stateKey := some "@bob",
          sender := "alice", sha256 := "h2", depth := 2, json := "invbody" } DBState.empty =
        (.ok b, s2) ∧
      (b = true ↔ inviteExists "$i1" DBState.empty.invites = false) ∧
      (inviteExists "$i1" DBState.empty.invites = true → s2.invites = DBState.empty.invites) ∧
      (inviteExists "$i1" DBState.empty.invites = false →
        s2.invites = DBState.empty.invites ++
          [{ eventID := "$i1", roomNID := 1, targetUserNID := 2,
             senderUserNID := senderNID, json := "invbody", retired := false }]) ∧
      (membershipState.unset ≠ membershipState.invite →
        s2.memberships = aupdate (1, 2)
          (fun _ => { senderUserNID := senderNID, membership := membershipState.invite, eventNID := 0 })
          DBState.empty.memberships) ∧
      (membershipState.unset = membershipState.invite → s2.memberships = DBState.empty.memberships) :=
  setToInvite_spec { roomNID := 1, targetUserNID := 2, membership := membershipState.unset }
    { eventID := "$i1", roomID := "!abc", eventType := "m.room.member", stateKey := some "@bob",
      sender := "alice", sha256 := "h2", depth := 2, json := "invbody" } DBState.empty

/-- Witness for C7: a join replay (isUpdate false) against the empty
store from a session opened in the Unset state. -/
theorem setToJoin_spec_witness :
    ∃ senderNID sA ids s2,
      Database.assignStateKeyNID sqliteStatements "alice" DBState.empty = (.ok senderNID, sA) ∧
      membershipUpdater.SetToJoin sqliteStatements
        { roomNID := 1, targetUserNID := 2, membership := membershipState.unset }
        "alice" "$j1" false DBState.empty = (.ok ids, s2) ∧
      (false = true → ids = [] ∧ s2.invites = DBState.empty.invites) ∧
      (false = false →
        ids = (DBState.empty.invites.filter (fun i =>
            decide (i.roomNID = 1 ∧ i.targetUserNID = 2 ∧ i.retired = false))).map
          (fun i => i.eventID) ∧
        s2.invites = DBState.empty.invites.map (fun i =>
          if i.roomNID = 1 ∧ i.targetUserNID = 2 ∧ i.retired = false then
            { i with retired := true } else i)) ∧
      ((membershipState.unset ≠ membershipState.join ∨ false = true) →
        s2.memberships = aupdate (1, 2)
          (fun _ => { senderUserNID := senderNID, membership := membershipState.join,
                      eventNID := (match alookup "$j1" DBState.empty.events with
                                   | some row => row.eventNID
                                   | none => 0) }) DBState.empty.memberships) ∧
      (membershipState.unset = membershipState.join ∧ false = false →
        s2.memberships = DBState.empty.memberships) :=
  setToJoin_spec { roomNID := 1, targetUserNID := 2, membership := membershipState.unset }
    "alice" "$j1" false DBState.empty
